import Mathlib

/-!
Shallow embedding of the telephony trunk admission-control and call-lifecycle
subsystem of the repository (backend/app/models/sip_trunk.py and
backend/app/services/sip_trunk_service.py).

Conventions:
* machine timestamps are integer microseconds (Python `datetime` resolution);
  `total_seconds()` followed by `int(...)` is truncation toward zero, embedded
  as `Int.tdiv _ 1000000`;
* Python floats used for money/latency are embedded as `Rat`;
* the database session is embedded as an explicit `DB` state; an in-place
  mutation of an ORM object fetched by a query is embedded as replacing the
  first list element matching the query predicate;
* pure data columns that no modelled operation reads or writes
  (account_id, metadata, codec fields, ip fields, ...) are omitted.
-/

inductive SipTrunkStatus where
  | active
  | inactive
  | suspended
  | maintenance
  | error
deriving DecidableEq, Repr

inductive SipTrunkProvider where
  | twilio
  | telnyx
  | bandwidth
  | vonage
  | custom
deriving DecidableEq, Repr

inductive CallDirection where
  | inbound
  | outbound
  | bidirectional
deriving DecidableEq, Repr

/-- `SipTrunk` model (models/sip_trunk.py). -/
structure SipTrunk where
  id : Nat
  user_id : Nat
  name : String
  provider : SipTrunkProvider
  status : SipTrunkStatus
  call_direction : CallDirection
  max_concurrent_calls : Int
  current_active_calls : Int
  last_health_check : Option Int
  health_status : String
  latency_ms : Option Rat
  packet_loss_percent : Option Rat
  cost_per_minute : Rat
  failover_trunk_id : Option Nat
  priority : Int
  deleted_at : Option Int
deriving DecidableEq, Repr

/-- `SipTrunk.is_active`: `status == ACTIVE and health_status == "healthy"`. -/
def SipTrunk.is_active (t : SipTrunk) : Bool :=
  t.status == SipTrunkStatus.active && t.health_status == "healthy"

/-- `SipTrunk.can_handle_call`: `is_active and current_active_calls < max_concurrent_calls`. -/
def SipTrunk.can_handle_call (t : SipTrunk) : Bool :=
  t.is_active && decide (t.current_active_calls < t.max_concurrent_calls)

/-- `SipTrunk.increment_active_calls`: increments the counter and returns
`True` when `can_handle_call`, otherwise returns `False` without change.
Embedded as (returned bool, post-state). -/
def SipTrunk.increment_active_calls (t : SipTrunk) : Bool × SipTrunk :=
  if t.can_handle_call then
    (true, { t with current_active_calls := t.current_active_calls + 1 })
  else
    (false, t)

/-- `SipTrunk.decrement_active_calls`: decrements the counter only when it is
positive. -/
def SipTrunk.decrement_active_calls (t : SipTrunk) : SipTrunk :=
  if t.current_active_calls > 0 then
    { t with current_active_calls := t.current_active_calls - 1 }
  else
    t

/-- `SipTrunk.update_health_status`: sets `health_status` and
`last_health_check`; latency and packet loss only when supplied. -/
def SipTrunk.update_health_status (t : SipTrunk) (status : String)
    (latency : Option Rat) (packet_loss : Option Rat) (now : Int) : SipTrunk :=
  { t with
    health_status := status
    last_health_check := some now
    latency_ms := match latency with
      | some l => some l
      | none => t.latency_ms
    packet_loss_percent := match packet_loss with
      | some p => some p
      | none => t.packet_loss_percent }

/-- `CallLog` model (models/sip_trunk.py). -/
structure CallLog where
  user_id : Nat
  sip_trunk_id : Nat
  call_id : String
  direction : CallDirection
  from_number : String
  to_number : String
  started_at : Int
  answered_at : Option Int
  ended_at : Option Int
  duration_seconds : Option Int
  status : String
  hangup_cause : Option String
  cost : Rat
deriving DecidableEq, Repr

/-- `CallLog.calculate_duration`: when both `answered_at` and `ended_at` are
set, stores and returns `int((ended_at - answered_at).total_seconds())`
(truncation toward zero); otherwise returns 0 without storing. -/
def CallLog.calculate_duration (c : CallLog) : Int × CallLog :=
  match c.answered_at, c.ended_at with
  | some a, some e =>
    let d := Int.tdiv (e - a) 1000000
    (d, { c with duration_seconds := some d })
  | _, _ => (0, c)

/-- `CallLog.calculate_cost`: when `duration_seconds` is truthy (set and
nonzero), stores and returns `(duration_seconds / 60.0) * rate_per_minute`;
otherwise returns 0 without storing. -/
def CallLog.calculate_cost (c : CallLog) (rate_per_minute : Rat) : Rat × CallLog :=
  match c.duration_seconds with
  | some d =>
    if d ≠ 0 then
      let cost := (d : Rat) / 60 * rate_per_minute
      (cost, { c with cost := cost })
    else
      (0, c)
  | none => (0, c)

/-- The database session state visible to `SipTrunkService`. -/
structure DB where
  trunks : List SipTrunk
  call_logs : List CallLog
deriving DecidableEq, Repr

/-- In-place mutation of the (unique, first) row matched by a query
predicate: replace the first element satisfying `p` by its image under `f`. -/
def updateFirst {α : Type} (p : α → Bool) (f : α → α) : List α → List α
  | [] => []
  | x :: xs => if p x then f x :: xs else x :: updateFirst p f xs

/-- `SipTrunkService._get_trunk_by_id`: lookup by id only. -/
def getTrunkById (db : DB) (trunk_id : Nat) : Option SipTrunk :=
  db.trunks.find? (fun t => t.id == trunk_id)

/-- `SipTrunkService._get_trunk`: lookup by id, owner and not soft-deleted. -/
def getTrunk (db : DB) (user_id trunk_id : Nat) : Option SipTrunk :=
  db.trunks.find? (fun t =>
    t.id == trunk_id && t.user_id == user_id && t.deleted_at.isNone)

/-- Result of SQLAlchemy `Result.scalar_one_or_none()`: `none` rows, exactly
`one` row, or the `MultipleResultsFound` exception. -/
inductive QueryResult (α : Type) where
  | noRow : QueryResult α
  | one : α → QueryResult α
  | multipleResultsFound : QueryResult α
deriving DecidableEq, Repr

def scalar_one_or_none {α : Type} : List α → QueryResult α
  | [] => QueryResult.noRow
  | [a] => QueryResult.one a
  | _ => QueryResult.multipleResultsFound

/-- Filter of the `get_available_trunk_for_call` query (owner, ACTIVE, not
deleted, direction compatible, spare capacity). -/
def eligible_for_call (user_id : Nat) (direction : CallDirection) (t : SipTrunk) : Bool :=
  t.user_id == user_id &&
  t.status == SipTrunkStatus.active &&
  t.deleted_at.isNone &&
  (t.call_direction == CallDirection.bidirectional || t.call_direction == direction) &&
  decide (t.current_active_calls < t.max_concurrent_calls)

/-- `ORDER BY priority, current_active_calls` of the selection query. -/
def trunkSelOrder (a b : SipTrunk) : Prop :=
  a.priority < b.priority ∨ (a.priority = b.priority ∧ a.current_active_calls ≤ b.current_active_calls)

instance : DecidableRel trunkSelOrder := fun a b => by
  unfold trunkSelOrder
  exact inferInstance

/-- `SipTrunkService.get_available_trunk_for_call`: the filtered, ordered
query has no `LIMIT 1`; its rows go through `scalar_one_or_none`. -/
def SipTrunkService.get_available_trunk_for_call (db : DB) (user_id : Nat)
    (direction : CallDirection) : QueryResult SipTrunk :=
  scalar_one_or_none
    (List.insertionSort trunkSelOrder (db.trunks.filter (eligible_for_call user_id direction)))

/-- `CallLogCreate` input schema fields used by `log_call`. -/
structure CallLogCreate where
  sip_trunk_id : Nat
  call_id : String
  direction : CallDirection
  from_number : String
  to_number : String
  started_at : Int
  status : String
deriving DecidableEq, Repr

/-- The `CallLog(...)` record constructed inside `log_call`. -/
def mkCallLog (trunk : SipTrunk) (cd : CallLogCreate) : CallLog :=
  { user_id := trunk.user_id
    sip_trunk_id := cd.sip_trunk_id
    call_id := cd.call_id
    direction := cd.direction
    from_number := cd.from_number
    to_number := cd.to_number
    started_at := cd.started_at
    answered_at := none
    ended_at := none
    duration_seconds := none
    status := cd.status
    hangup_cause := none
    cost := 0 }

/-- `SipTrunkService.log_call`: validates the trunk exists, inserts the new
call log, calls `increment_active_calls` discarding its boolean result, and
returns the created log.  A missing trunk raises `ValueError`. -/
def SipTrunkService.log_call (db : DB) (cd : CallLogCreate) : DB × Except String CallLog :=
  match getTrunkById db cd.sip_trunk_id with
  | none => (db, Except.error "SIP trunk not found")
  | some trunk =>
    let newLog : CallLog := mkCallLog trunk cd
    ({ db with
        call_logs := db.call_logs ++ [newLog]
        trunks := updateFirst (fun t => t.id == cd.sip_trunk_id)
          (fun t => (t.increment_active_calls).2) db.trunks },
      Except.ok newLog)

/-- `CallLogUpdate` schema: a field is `some v` when set in the request
(pydantic `exclude_unset`), `none` when left unset. -/
structure CallLogUpdate where
  answered_at : Option Int := none
  ended_at : Option Int := none
  status : Option String := none
  hangup_cause : Option String := none
  duration_seconds : Option Int := none
  cost : Option Rat := none
deriving DecidableEq, Repr

/-- The `setattr` loop of `update_call_log`: every set field overwrites the
record's field. -/
def applyCallLogUpdate (c : CallLog) (u : CallLogUpdate) : CallLog :=
  { c with
    answered_at := match u.answered_at with
      | some v => some v
      | none => c.answered_at
    ended_at := match u.ended_at with
      | some v => some v
      | none => c.ended_at
    status := match u.status with
      | some v => v
      | none => c.status
    hangup_cause := match u.hangup_cause with
      | some v => some v
      | none => c.hangup_cause
    duration_seconds := match u.duration_seconds with
      | some v => some v
      | none => c.duration_seconds
    cost := match u.cost with
      | some v => v
      | none => c.cost }

/-- `SipTrunkService.update_call_log`: fetches the log by `call_id`, applies
the `setattr` loop, then (reading the already-mutated record) runs the
`decrement_active_calls` branch and the duration/cost recomputation, and
commits.  Returns `none` when the log is not found. -/
def SipTrunkService.update_call_log (db : DB) (call_id : String) (u : CallLogUpdate) :
    DB × Option CallLog :=
  match db.call_logs.find? (fun c => c.call_id == call_id) with
  | none => (db, none)
  | some c0 =>
    let c1 := applyCallLogUpdate c0 u
    let db1 :=
      if u.ended_at.isSome && c1.ended_at.isNone then
        match getTrunkById db c1.sip_trunk_id with
        | some _ =>
          let trunks' := updateFirst (fun t => t.id == c1.sip_trunk_id)
            SipTrunk.decrement_active_calls db.trunks
          { db with trunks := trunks' }
        | none => db
      else db
    let c2 :=
      if c1.ended_at.isSome && c1.answered_at.isSome then
        let c' := (c1.calculate_duration).2
        match getTrunkById db1 c'.sip_trunk_id with
        | some t => (c'.calculate_cost t.cost_per_minute).2
        | none => c'
      else c1
    ({ db1 with call_logs := updateFirst (fun c => c.call_id == call_id) (fun _ => c2) db1.call_logs },
      some c2)

/-- `SipTrunkService.delete_sip_trunk`: soft delete; raises `ValueError` and
rolls back (state unchanged) when the trunk still has active calls. -/
def SipTrunkService.delete_sip_trunk (db : DB) (user_id trunk_id : Nat) (now : Int) :
    DB × Except String Bool :=
  match getTrunk db user_id trunk_id with
  | none => (db, Except.ok false)
  | some t =>
    if t.current_active_calls > 0 then
      (db, Except.error "Cannot delete trunk with active calls")
    else
      let trunks' := updateFirst
        (fun x => x.id == trunk_id && x.user_id == user_id && x.deleted_at.isNone)
        (fun x => { x with deleted_at := some now, status := SipTrunkStatus.inactive })
        db.trunks
      ({ db with trunks := trunks' }, Except.ok true)

/-- The service's provider registry holds implementations for twilio and
telnyx only. -/
def hasProvider : SipTrunkProvider → Bool
  | SipTrunkProvider.twilio => true
  | SipTrunkProvider.telnyx => true
  | _ => false

/-- Outcome of one `provider.health_check` invocation: a result dict with a
status string (and optional latency/packet-loss), or a raised exception. -/
inductive ProbeOutcome where
  | ok (status : String) (latency : Option Rat) (packet_loss : Option Rat)
  | failure
deriving DecidableEq, Repr

/-- `SipTrunkService._perform_health_check`: with a registered provider, a
successful probe stores the reported health fields and an exception stores
health_status "error"; without a provider the status becomes "unknown".
`trunk.status` is never modified. -/
def perform_health_check (t : SipTrunk) (probe : ProbeOutcome) (now : Int) : SipTrunk :=
  if hasProvider t.provider then
    match probe with
    | ProbeOutcome.ok s lat pl => t.update_health_status s lat pl now
    | ProbeOutcome.failure => t.update_health_status "error" none none now
  else
    t.update_health_status "unknown" none none now

/-- Modelled from the spec: the atomic admission condition of
`CapacityManager.Admit` (§4.1) — Active trunk, health Healthy-or-Unknown,
spare capacity.  The CapacityManager/FailoverCoordinator components are
absent from src (only the `failover_trunk_id` column is declared there). -/
def specAdmitCheck (t : SipTrunk) : Bool :=
  t.status == SipTrunkStatus.active &&
  (t.health_status == "healthy" || t.health_status == "unknown") &&
  decide (t.current_active_calls < t.max_concurrent_calls)

/-- Modelled from the spec: the TrunkSelector eligibility predicate
(§4.3 step 1) used at each failover hop. -/
def specEligible (user_id : Nat) (direction : CallDirection) (t : SipTrunk) : Bool :=
  t.user_id == user_id &&
  t.deleted_at.isNone &&
  t.status == SipTrunkStatus.active &&
  (t.health_status == "healthy" || t.health_status == "unknown") &&
  (t.call_direction == CallDirection.bidirectional || t.call_direction == direction) &&
  decide (t.current_active_calls < t.max_concurrent_calls)

inductive ResolveResult where
  | noTrunkAvailable : ResolveResult
  | found : SipTrunk → ResolveResult
deriving DecidableEq, Repr

/-- Modelled from the spec: `FailoverCoordinator.Resolve` (§4.4), which is
absent from src.  Follows `failover_trunk_id` links; at each hop a nil or
already-visited trunk stops with NoTrunkAvailable, otherwise the trunk is
added to the visited set, checked for eligibility and admission, and on
failure its failover target is tried.  The first argument after the
direction is the remaining chain depth (maximum 10 at the entry point). -/
def resolve_failover (db : DB) (user_id : Nat) (direction : CallDirection) :
    Nat → Option Nat → List Nat → ResolveResult × DB
  | 0, _, _ => (ResolveResult.noTrunkAvailable, db)
  | _ + 1, none, _ => (ResolveResult.noTrunkAvailable, db)
  | depth + 1, some tid, visited =>
    if tid ∈ visited then (ResolveResult.noTrunkAvailable, db)
    else
      match getTrunkById db tid with
      | none => (ResolveResult.noTrunkAvailable, db)
      | some t =>
        if specEligible user_id direction t then
          if specAdmitCheck t then
            let t' := { t with current_active_calls := t.current_active_calls + 1 }
            let trunks' := updateFirst (fun x => x.id == tid) (fun _ => t') db.trunks
            (ResolveResult.found t', { db with trunks := trunks' })
          else
            resolve_failover db user_id direction depth t.failover_trunk_id (tid :: visited)
        else
          resolve_failover db user_id direction depth t.failover_trunk_id (tid :: visited)

/-- Modelled from the spec: the defensive maximum failover chain depth. -/
def maxFailoverDepth : Nat := 10

/-- Entry point of failover resolution starting from a trunk id. -/
def resolve_failover_from (db : DB) (user_id : Nat) (direction : CallDirection)
    (start : Option Nat) : ResolveResult × DB :=
  resolve_failover db user_id direction maxFailoverDepth start []

/-! Concrete instances used by witnesses and counterexamples. -/

/-- A healthy active bidirectional trunk with capacity 5. -/
def baseTrunk : SipTrunk :=
  { id := 1
    user_id := 1
    name := "trunk-a"
    provider := SipTrunkProvider.twilio
    status := SipTrunkStatus.active
    call_direction := CallDirection.bidirectional
    max_concurrent_calls := 5
    current_active_calls := 0
    last_health_check := none
    health_status := "healthy"
    latency_ms := none
    packet_loss_percent := none
    cost_per_minute := 1
    failover_trunk_id := none
    priority := 1
    deleted_at := none }

/-- C1 scenario: trunk with one active call and a call log not yet ended. -/
def trunkC1 : SipTrunk := { baseTrunk with current_active_calls := 1 }

def callLogC1 : CallLog :=
  { user_id := 1
    sip_trunk_id := 1
    call_id := "call1"
    direction := CallDirection.outbound
    from_number := "+100"
    to_number := "+200"
    started_at := 0
    answered_at := none
    ended_at := none
    duration_seconds := none
    status := "initiated"
    hangup_cause := none
    cost := 0 }

def dbC1 : DB := { trunks := [trunkC1], call_logs := [callLogC1] }

def updC1 : CallLogUpdate := { ended_at := some 5000000 }

/-- C2 scenario: Active trunk whose health is "unknown" with spare capacity. -/
def trunkC2 : SipTrunk := { baseTrunk with health_status := "unknown" }

/-- C4 scenario: a call log already in the terminal Ended state. -/
def callLogC4 : CallLog :=
  { callLogC1 with call_id := "call4", status := "ended", ended_at := some 9000000 }

def dbC4 : DB := { trunks := [baseTrunk], call_logs := [callLogC4] }

def updC4 : CallLogUpdate := { status := some "ringing" }

/-- C5 scenario: the three eligible trunks of the claim. -/
def trunkC5a : SipTrunk := { baseTrunk with id := 1, priority := 1, current_active_calls := 3 }

def trunkC5b : SipTrunk := { baseTrunk with id := 2, priority := 1, current_active_calls := 1 }

def trunkC5c : SipTrunk := { baseTrunk with id := 3, priority := 2, current_active_calls := 0 }

def dbC5 : DB := { trunks := [trunkC5a, trunkC5b, trunkC5c], call_logs := [] }

/-- C7 scenario: failover cycle A -> B -> A with both trunks at capacity. -/
def trunkC7a : SipTrunk :=
  { baseTrunk with id := 1, current_active_calls := 5, failover_trunk_id := some 2 }

def trunkC7b : SipTrunk :=
  { baseTrunk with id := 2, current_active_calls := 5, failover_trunk_id := some 1 }

def dbC7 : DB := { trunks := [trunkC7a, trunkC7b], call_logs := [] }

/-- C8 scenario: a call whose ended_at precedes its answered_at by 5 seconds. -/
def callLogC8 : CallLog :=
  { callLogC1 with call_id := "call8", answered_at := some 10000000, ended_at := some 5000000 }

/-- C9 scenario: trunk at capacity and a creation request against it. -/
def trunkC9 : SipTrunk := { baseTrunk with current_active_calls := 5 }

def dbC9 : DB := { trunks := [trunkC9], call_logs := [] }

def createC9 : CallLogCreate :=
  { sip_trunk_id := 1
    call_id := "call9"
    direction := CallDirection.outbound
    from_number := "+100"
    to_number := "+200"
    started_at := 0
    status := "initiated" }

/-- C10 scenario: trunk with an active call. -/
def dbC10 : DB := { trunks := [trunkC1], call_logs := [] }

/-! Helper lemmas. -/

theorem updateFirst_eq_self {α : Type} (p : α → Bool) (f : α → α) :
    ∀ l : List α, (∀ x, l.find? p = some x → f x = x) → updateFirst p f l = l
  | [], _ => rfl
  | x :: xs, h => by
    unfold updateFirst
    by_cases hp : p x
    · rw [if_pos hp, h x (List.find?_cons_of_pos xs hp)]
    · rw [if_neg hp,
        updateFirst_eq_self p f xs (fun y hy => h y (by rw [List.find?_cons_of_neg xs hp]; exact hy))]

theorem can_handle_call_iff (t : SipTrunk) :
    t.can_handle_call = true ↔
      (t.status = SipTrunkStatus.active ∧ t.health_status = "healthy" ∧
        t.current_active_calls < t.max_concurrent_calls) := by
  simp [SipTrunk.can_handle_call, SipTrunk.is_active, Bool.and_eq_true, and_assoc]

theorem calculate_duration_status (c : CallLog) :
    ((c.calculate_duration).2).status = c.status := by
  cases ha : c.answered_at <;> cases he : c.ended_at <;>
    simp [CallLog.calculate_duration, ha, he]

theorem calculate_cost_status (c : CallLog) (r : Rat) :
    ((c.calculate_cost r).2).status = c.status := by
  cases hd : c.duration_seconds with
  | none => simp [CallLog.calculate_cost, hd]
  | some d =>
    by_cases h : d ≠ 0 <;> simp [CallLog.calculate_cost, hd, h]

/-! Claim theorems. -/

/-- C2 counterexample: an Active trunk with health_status "unknown" and spare
capacity is refused by `increment_active_calls` and left unchanged, although
the claim states that Active + Unknown health + spare capacity admits. -/
theorem C2_unknown_health_refused :
    trunkC2.status = SipTrunkStatus.active ∧
    trunkC2.health_status = "unknown" ∧
    trunkC2.current_active_calls < trunkC2.max_concurrent_calls ∧
    trunkC2.increment_active_calls = (false, trunkC2) := by
  refine ⟨rfl, rfl, by decide, ?_⟩
  rfl

/-- C2 (amended): `increment_active_calls` returns true and increments the
counter by exactly one iff the trunk status is Active, its health_status is
exactly "healthy", and current_active_calls < max_concurrent_calls; in every
other case it returns false and leaves the trunk unchanged. -/
theorem C2_admission_characterisation (t : SipTrunk) :
    (t.increment_active_calls =
        (true, { t with current_active_calls := t.current_active_calls + 1 }) ∧
      t.status = SipTrunkStatus.active ∧ t.health_status = "healthy" ∧
      t.current_active_calls < t.max_concurrent_calls) ∨
    (t.increment_active_calls = (false, t) ∧
      ¬(t.status = SipTrunkStatus.active ∧ t.health_status = "healthy" ∧
        t.current_active_calls < t.max_concurrent_calls)) := by
  by_cases h : t.can_handle_call = true
  · exact Or.inl ⟨by simp [SipTrunk.increment_active_calls, h], (can_handle_call_iff t).mp h⟩
  · refine Or.inr ⟨by simp [SipTrunk.increment_active_calls, h], fun hc => h ?_⟩
    exact (can_handle_call_iff t).mpr hc

/-- Counter operations that a trunk's counter can undergo. -/
inductive CounterOp where
  | inc : CounterOp
  | dec : CounterOp
deriving DecidableEq, Repr

def applyCounterOp (t : SipTrunk) : CounterOp → SipTrunk
  | CounterOp.inc => (t.increment_active_calls).2
  | CounterOp.dec => t.decrement_active_calls

def applyCounterOps (t : SipTrunk) (ops : List CounterOp) : SipTrunk :=
  ops.foldl applyCounterOp t

theorem applyCounterOp_bounds (t : SipTrunk) (op : CounterOp)
    (h0 : 0 ≤ t.current_active_calls)
    (h1 : t.current_active_calls ≤ t.max_concurrent_calls) :
    0 ≤ (applyCounterOp t op).current_active_calls ∧
      (applyCounterOp t op).current_active_calls ≤ (applyCounterOp t op).max_concurrent_calls := by
  cases op with
  | inc =>
    simp only [applyCounterOp, SipTrunk.increment_active_calls]
    split
    · rename_i h
      have hlt := ((can_handle_call_iff t).mp h).2.2
      refine ⟨?_, ?_⟩
      · show 0 ≤ t.current_active_calls + 1
        omega
      · show t.current_active_calls + 1 ≤ t.max_concurrent_calls
        omega
    · exact ⟨h0, h1⟩
  | dec =>
    simp only [applyCounterOp, SipTrunk.decrement_active_calls]
    split
    · rename_i h
      refine ⟨?_, ?_⟩
      · show 0 ≤ t.current_active_calls - 1
        omega
      · show t.current_active_calls - 1 ≤ t.max_concurrent_calls
        omega
    · exact ⟨h0, h1⟩

/-- C3: every finite sequence of increment_active_calls and
decrement_active_calls operations preserves
0 ≤ current_active_calls ≤ max_concurrent_calls. -/
theorem C3_counter_invariant (t : SipTrunk) (ops : List CounterOp)
    (h0 : 0 ≤ t.current_active_calls)
    (h1 : t.current_active_calls ≤ t.max_concurrent_calls) :
    0 ≤ (applyCounterOps t ops).current_active_calls ∧
      (applyCounterOps t ops).current_active_calls ≤
        (applyCounterOps t ops).max_concurrent_calls := by
  induction ops generalizing t with
  | nil => exact ⟨h0, h1⟩
  | cons op rest ih =>
    obtain ⟨a, b⟩ := applyCounterOp_bounds t op h0 h1
    have : applyCounterOps t (op :: rest) = applyCounterOps (applyCounterOp t op) rest := rfl
    rw [this]
    exact ih (applyCounterOp t op) a b

/-- Witness for C3 at a concrete trunk and operation sequence. -/
theorem C3_counter_invariant_witness :
    0 ≤ baseTrunk.current_active_calls ∧
    baseTrunk.current_active_calls ≤ baseTrunk.max_concurrent_calls ∧
    (0 ≤ (applyCounterOps baseTrunk
        [CounterOp.inc, CounterOp.inc, CounterOp.dec, CounterOp.dec, CounterOp.dec]).current_active_calls ∧
      (applyCounterOps baseTrunk
        [CounterOp.inc, CounterOp.inc, CounterOp.dec, CounterOp.dec, CounterOp.dec]).current_active_calls ≤
        (applyCounterOps baseTrunk
          [CounterOp.inc, CounterOp.inc, CounterOp.dec, CounterOp.dec, CounterOp.dec]).max_concurrent_calls) :=
  ⟨by decide, by decide,
    C3_counter_invariant baseTrunk
      [CounterOp.inc, CounterOp.inc, CounterOp.dec, CounterOp.dec, CounterOp.dec]
      (by decide) (by decide)⟩

/-- The guard of the decrement branch of `update_call_log` is evaluated after
the `setattr` loop already wrote `ended_at`, so it can never hold. -/
theorem dead_decrement_cond (c : CallLog) (u : CallLogUpdate) :
    (u.ended_at.isSome && ((applyCallLogUpdate c u).ended_at).isNone) = false := by
  cases he : u.ended_at <;> simp [applyCallLogUpdate, he]

/-- C1: capacity is never released.  Updating call "call1" (whose ended_at is
unset) with an update that sets ended_at stores the timestamp on the record
but leaves the owning trunk's current_active_calls at 1 instead of
decrementing it: the check `not call_log.ended_at` runs after the update
fields were already applied, so the decrement branch is unreachable. -/
theorem C1_capacity_never_released :
    callLogC1.ended_at = none ∧
    ((SipTrunkService.update_call_log dbC1 "call1" updC1).2.bind CallLog.ended_at
        = some 5000000) ∧
    getTrunkById (SipTrunkService.update_call_log dbC1 "call1" updC1).1 1 = some trunkC1 ∧
    trunkC1.current_active_calls = 1 := by
  exact ⟨rfl, rfl, rfl, rfl⟩

/-- C4 counterexample: a transition request Ended -> Ringing (not a legal
edge) is not rejected: update_call_log applies it and returns the modified
record. -/
theorem C4_terminal_transition_applied :
    callLogC4.status = "ended" ∧
    callLogC4.ended_at = some 9000000 ∧
    (SipTrunkService.update_call_log dbC4 "call4" updC4).2 =
      some { callLogC4 with status := "ringing" } := by
  exact ⟨rfl, rfl, rfl⟩

/-- C4 (amended): update_call_log performs no lifecycle validation: for every
existing call record it applies the requested fields regardless of the
record's current state and returns the updated record — there is no
InvalidTransition rejection — and the trunks (hence all counters) are left
unchanged. -/
theorem C4_no_transition_validation (db : DB) (cid : String) (u : CallLogUpdate) (c : CallLog)
    (hfind : db.call_logs.find? (fun x => x.call_id == cid) = some c) :
    (SipTrunkService.update_call_log db cid u).1.trunks = db.trunks ∧
    ∃ c', (SipTrunkService.update_call_log db cid u).2 = some c' ∧
      c'.status = (match u.status with
        | some s => s
        | none => c.status) := by
  unfold SipTrunkService.update_call_log
  rw [hfind]
  simp only [dead_decrement_cond, Bool.false_eq_true, if_false]
  constructor
  · trivial
  · refine ⟨_, rfl, ?_⟩
    have hstat : (applyCallLogUpdate c u).status =
        (match u.status with
          | some s => s
          | none => c.status) := rfl
    split
    · split
      · rw [calculate_cost_status, calculate_duration_status, hstat]
      · rw [calculate_duration_status, hstat]
    · exact hstat

/-- Witness for C4 (amended) at a concrete database and update. -/
theorem C4_no_transition_validation_witness :
    dbC4.call_logs.find? (fun x => x.call_id == "call4") = some callLogC4 ∧
    ((SipTrunkService.update_call_log dbC4 "call4" updC4).1.trunks = dbC4.trunks ∧
      ∃ c', (SipTrunkService.update_call_log dbC4 "call4" updC4).2 = some c' ∧
        c'.status = (match updC4.status with
          | some s => s
          | none => callLogC4.status)) :=
  ⟨rfl, C4_no_transition_validation dbC4 "call4" updC4 callLogC4 rfl⟩

/-- C5: with the user owning exactly the three eligible trunks of the claim,
the selection query matches all three rows and `scalar_one_or_none` raises
MultipleResultsFound (the query has no LIMIT 1), instead of returning the
priority-1 load-1/5 trunk. -/
theorem C5_selection_raises_multiple_results :
    SipTrunkService.get_available_trunk_for_call dbC5 1 CallDirection.outbound =
      QueryResult.multipleResultsFound := by
  rfl

/-- C6 counterexample: for an Active healthy trunk with a registered
provider, three consecutive failed probes leave trunk.status Active — the
claimed Active -> Error status transition does not exist in the code (only
health_status changes). -/
theorem C6_three_failures_keep_active :
    baseTrunk.status = SipTrunkStatus.active ∧
    (perform_health_check (perform_health_check (perform_health_check baseTrunk
        ProbeOutcome.failure 1) ProbeOutcome.failure 2) ProbeOutcome.failure 3).status =
      SipTrunkStatus.active ∧
    SipTrunkStatus.active ≠ SipTrunkStatus.error := by
  exact ⟨rfl, rfl, by decide⟩

/-- C6 (amended): for every Active trunk with a registered provider, a single
failed probe already sets health_status to "error" while trunk.status stays
Active; its eligibility for get_available_trunk_for_call is unchanged (the
selection filter does not read health_status); and a subsequent successful
probe reporting "healthy" restores health_status, again leaving trunk.status
Active. -/
theorem C6_health_probe_behaviour (t : SipTrunk) (uid : Nat) (dir : CallDirection)
    (lat pl : Option Rat) (now now2 : Int)
    (h : t.status = SipTrunkStatus.active) (hp : hasProvider t.provider = true) :
    (perform_health_check t ProbeOutcome.failure now).status = SipTrunkStatus.active ∧
    (perform_health_check t ProbeOutcome.failure now).health_status = "error" ∧
    eligible_for_call uid dir (perform_health_check t ProbeOutcome.failure now) =
      eligible_for_call uid dir t ∧
    (perform_health_check (perform_health_check t ProbeOutcome.failure now)
        (ProbeOutcome.ok "healthy" lat pl) now2).status = SipTrunkStatus.active ∧
    (perform_health_check (perform_health_check t ProbeOutcome.failure now)
        (ProbeOutcome.ok "healthy" lat pl) now2).health_status = "healthy" := by
  have e1 : perform_health_check t ProbeOutcome.failure now =
      t.update_health_status "error" none none now := by
    unfold perform_health_check
    rw [if_pos hp]
  have e2 : perform_health_check (t.update_health_status "error" none none now)
      (ProbeOutcome.ok "healthy" lat pl) now2 =
      (t.update_health_status "error" none none now).update_health_status "healthy" lat pl now2 := by
    unfold perform_health_check
    rw [if_pos (show hasProvider ((t.update_health_status "error" none none now)).provider = true from hp)]
  rw [e1, e2]
  exact ⟨h, rfl, rfl, h, rfl⟩

/-- A trunk passing the spec's TrunkSelector eligibility predicate also
passes the spec's atomic admission condition. -/
theorem specAdmitCheck_of_eligible (uid : Nat) (dir : CallDirection) (t : SipTrunk)
    (h : specEligible uid dir t = true) : specAdmitCheck t = true := by
  simp only [specEligible, Bool.and_eq_true] at h
  simp only [specAdmitCheck, Bool.and_eq_true]
  exact ⟨⟨h.1.1.1.2, h.1.1.2⟩, h.2⟩

/-- C7: failover resolution always terminates (the recursion is bounded by
the chain depth), and when no trunk of the configuration passes the
admission condition — in particular for any cyclic failover_trunk_id
configuration whose trunks are all saturated — it returns NoTrunkAvailable
with the database unchanged, for every depth, starting point and visited
set. -/
theorem C7_cycle_resolves_no_trunk (db : DB) (uid : Nat) (dir : CallDirection)
    (hall : ∀ t ∈ db.trunks, specAdmitCheck t = false) :
    ∀ (depth : Nat) (start : Option Nat) (visited : List Nat),
      resolve_failover db uid dir depth start visited = (ResolveResult.noTrunkAvailable, db) := by
  intro depth
  induction depth with
  | zero =>
    intro start visited
    rfl
  | succ d ih =>
    intro start visited
    cases start with
    | none => rfl
    | some tid =>
      unfold resolve_failover
      by_cases hv : tid ∈ visited
      · rw [if_pos hv]
      · rw [if_neg hv]
        split
        · rfl
        · rename_i t hf
          have hmem : t ∈ db.trunks := List.mem_of_find?_eq_some hf
          have hel : ¬(specEligible uid dir t = true) := by
            intro hsE
            have := specAdmitCheck_of_eligible uid dir t hsE
            rw [hall t hmem] at this
            exact Bool.false_ne_true this
          rw [if_neg hel]
          exact ih t.failover_trunk_id (tid :: visited)

/-- Witness for C7 on the concrete cycle A -> B -> A with saturated trunks. -/
theorem C7_cycle_resolves_no_trunk_witness :
    (∀ t ∈ dbC7.trunks, specAdmitCheck t = false) ∧
    resolve_failover dbC7 1 CallDirection.outbound 10 (some 1) [] =
      (ResolveResult.noTrunkAvailable, dbC7) :=
  ⟨by decide, C7_cycle_resolves_no_trunk dbC7 1 CallDirection.outbound (by decide) 10 (some 1) []⟩

/-- C8 counterexample: with ended_at five seconds before answered_at,
calculate_duration stores and returns -5 — there is no clamping at the
claimed minimum of 0. -/
theorem C8_negative_duration :
    callLogC8.answered_at = some 10000000 ∧
    callLogC8.ended_at = some 5000000 ∧
    (callLogC8.calculate_duration).1 = -5 ∧
    ¬(0 ≤ (callLogC8.calculate_duration).1) := by
  exact ⟨rfl, rfl, by decide, by decide⟩

/-- C8 (amended): for every call record with both answered_at and ended_at
set, calculate_duration yields ended_at - answered_at truncated toward zero
to whole seconds with no minimum (negative when ended_at precedes
answered_at), and calculate_cost on the resulting record yields
(duration_seconds / 60) * rate_per_minute. -/
theorem C8_duration_and_cost (c : CallLog) (a e : Int) (rate : Rat)
    (ha : c.answered_at = some a) (he : c.ended_at = some e) :
    (c.calculate_duration).1 = Int.tdiv (e - a) 1000000 ∧
    ((c.calculate_duration).2.calculate_cost rate).1 =
      ((Int.tdiv (e - a) 1000000 : Int) : Rat) / 60 * rate := by
  have hd : c.calculate_duration =
      (Int.tdiv (e - a) 1000000,
        { c with duration_seconds := some (Int.tdiv (e - a) 1000000) }) := by
    unfold CallLog.calculate_duration
    rw [ha, he]
  rw [hd]
  refine ⟨rfl, ?_⟩
  by_cases h : Int.tdiv (e - a) 1000000 = 0
  · simp [CallLog.calculate_cost, h]
  · simp [CallLog.calculate_cost, h]

/-- Witness for C8 (amended) at a concrete record and rate. -/
theorem C8_duration_and_cost_witness :
    callLogC8.answered_at = some 10000000 ∧
    callLogC8.ended_at = some 5000000 ∧
    ((callLogC8.calculate_duration).1 = Int.tdiv (5000000 - 10000000) 1000000 ∧
      ((callLogC8.calculate_duration).2.calculate_cost 2).1 =
        ((Int.tdiv (5000000 - 10000000) 1000000 : Int) : Rat) / 60 * 2) :=
  ⟨rfl, rfl, C8_duration_and_cost callLogC8 10000000 5000000 2 rfl rfl⟩

/-- C9: log_call succeeds even when the admission check fails: with the
trunk found and can_handle_call false, the call log is created, appended and
returned, and the trunk list — hence every current_active_calls counter — is
unchanged, because the false result of increment_active_calls is ignored. -/
theorem C9_log_call_ignores_failed_admission (db : DB) (cd : CallLogCreate) (t : SipTrunk)
    (ht : getTrunkById db cd.sip_trunk_id = some t)
    (hcap : t.can_handle_call = false) :
    SipTrunkService.log_call db cd =
      ({ db with call_logs := db.call_logs ++ [mkCallLog t cd] },
        Except.ok (mkCallLog t cd)) ∧
    (mkCallLog t cd).call_id = cd.call_id := by
  refine ⟨?_, rfl⟩
  unfold SipTrunkService.log_call
  rw [ht]
  have htr : updateFirst (fun x => x.id == cd.sip_trunk_id)
      (fun x => (x.increment_active_calls).2) db.trunks = db.trunks := by
    apply updateFirst_eq_self
    intro x hx
    have hxt : x = t := by
      have h2 : db.trunks.find? (fun x => x.id == cd.sip_trunk_id) = some t := ht
      rw [h2] at hx
      exact (Option.some.injEq _ _ ▸ hx).symm
    rw [hxt]
    simp [SipTrunk.increment_active_calls, hcap]
  rw [htr]

/-- Witness for C9 on a saturated trunk. -/
theorem C9_log_call_ignores_failed_admission_witness :
    getTrunkById dbC9 createC9.sip_trunk_id = some trunkC9 ∧
    trunkC9.can_handle_call = false ∧
    (SipTrunkService.log_call dbC9 createC9 =
        ({ dbC9 with call_logs := dbC9.call_logs ++ [mkCallLog trunkC9 createC9] },
          Except.ok (mkCallLog trunkC9 createC9)) ∧
      (mkCallLog trunkC9 createC9).call_id = createC9.call_id) :=
  ⟨rfl, by decide, C9_log_call_ignores_failed_admission dbC9 createC9 trunkC9 rfl (by decide)⟩

/-- C10: delete_sip_trunk on a trunk with current_active_calls > 0 raises
ValueError "Cannot delete trunk with active calls" and (after rollback)
leaves the database — in particular deleted_at and status — unchanged. -/
theorem C10_delete_with_active_calls_fails (db : DB) (uid tid : Nat) (now : Int) (t : SipTrunk)
    (ht : getTrunk db uid tid = some t)
    (hc : t.current_active_calls > 0) :
    SipTrunkService.delete_sip_trunk db uid tid now =
      (db, Except.error "Cannot delete trunk with active calls") := by
  simp [SipTrunkService.delete_sip_trunk, ht, hc]

/-- Witness for C10 on a trunk with one active call. -/
theorem C10_delete_with_active_calls_fails_witness :
    getTrunk dbC10 1 1 = some trunkC1 ∧
    trunkC1.current_active_calls > 0 ∧
    SipTrunkService.delete_sip_trunk dbC10 1 1 0 =
      (dbC10, Except.error "Cannot delete trunk with active calls") :=
  ⟨rfl, by decide, C10_delete_with_active_calls_fails dbC10 1 1 0 trunkC1 rfl (by decide)⟩

/-- Witness for C6 (amended) on a concrete Active twilio trunk. -/
theorem C6_health_probe_behaviour_witness :
    baseTrunk.status = SipTrunkStatus.active ∧
    hasProvider baseTrunk.provider = true ∧
    ((perform_health_check baseTrunk ProbeOutcome.failure 1).status = SipTrunkStatus.active ∧
      (perform_health_check baseTrunk ProbeOutcome.failure 1).health_status = "error" ∧
      eligible_for_call 1 CallDirection.outbound
          (perform_health_check baseTrunk ProbeOutcome.failure 1) =
        eligible_for_call 1 CallDirection.outbound baseTrunk ∧
      (perform_health_check (perform_health_check baseTrunk ProbeOutcome.failure 1)
          (ProbeOutcome.ok "healthy" none none) 2).status = SipTrunkStatus.active ∧
      (perform_health_check (perform_health_check baseTrunk ProbeOutcome.failure 1)
          (ProbeOutcome.ok "healthy" none none) 2).health_status = "healthy") :=
  ⟨rfl, rfl,
    C6_health_probe_behaviour baseTrunk 1 CallDirection.outbound none none 1 2 rfl rfl⟩
